import Mathlib

/-!
Verification of the Financial-Research-Agent analysis pipeline.

This file gives a shallow embedding, in Lean 4, of the core numeric and
control-flow code of the repository (`backend/app/services/indicators.py`,
`backend/app/services/sentiment.py`, `backend/app/agents/...`,
`backend/app/routes/agent_routes.py`) and proves properties of it.

Modelling conventions:
* Python floats are modelled as exact rationals (`ℚ`).  All arithmetic claims
  proved here are claims about the exact real-number semantics of the source
  expressions.
* Python's `round(x, n)` rounds to `n` decimal places with ties going to the
  even digit; it is modelled by `pyRound2` / `pyRound3` below (ties to even).
  No statement in this file depends on tie behaviour.
* Python dict access `d.get(k, default)` is modelled by `Option` fields with
  `Option.getD`.
* Python truthiness of an optional string (`if state.get("error"):`) is
  modelled by `errTruthy` (present and non-empty).
* `list.sort(key=..., reverse=True)` is modelled by `List.insertionSort` with
  the corresponding descending lexicographic relation; Python guarantees the
  output is sorted in this order (stability is irrelevant to the claims).
-/

/-- Round a rational to the nearest integer, ties to the even integer
(the rule used by Python's `round`). -/
def roundHalfEven (x : ℚ) : ℤ :=
  let f := Int.floor x
  if x - f < 1/2 then f
  else if 1/2 < x - f then f + 1
  else if f % 2 = 0 then f else f + 1

/-- Python `round(x, 2)`. -/
def pyRound2 (x : ℚ) : ℚ := (roundHalfEven (x * 100) : ℚ) / 100

/-- Python `round(x, 3)`. -/
def pyRound3 (x : ℚ) : ℚ := (roundHalfEven (x * 1000) : ℚ) / 1000

/-- Python truthiness of an optional string: `if d.get("error"):` is true
exactly when the field is present and non-empty. -/
def errTruthy (o : Option String) : Bool := (o.getD "") ≠ ""

/-- Tokeniser behind Python `text.split()`: scan the characters, collecting
maximal runs of non-whitespace into tokens (`acc` holds the current token,
reversed). -/
def pySplitChars (acc : List Char) : List Char → List (List Char)
  | [] => if acc.isEmpty then [] else [acc.reverse]
  | c :: cs =>
    if c.isWhitespace then
      if acc.isEmpty then pySplitChars [] cs else acc.reverse :: pySplitChars [] cs
    else pySplitChars (c :: acc) cs

/-- Python `text.split()`: split on whitespace runs, dropping empty pieces. -/
def pySplit (s : String) : List String :=
  (pySplitChars [] s.toList).map fun cs => String.mk cs

/-- Interleave single spaces between tokens (`" ".join`). -/
def joinSpace : List (List Char) → List Char
  | [] => []
  | [t] => t
  | t :: u :: ts => t ++ ' ' :: joinSpace (u :: ts)

/-- Python `" ".join(text.split())` — the whitespace normalisation used by the
sentiment preprocess node. -/
def cleanText (s : String) : String :=
  String.mk (joinSpace (pySplitChars [] s.toList))

/-! ## IndicatorEngine: `backend/app/services/indicators.py` -/

/-- The per-step gains of a price series: `gains[i] = max(values[i] - values[i-1], 0)`
for `i ≥ 1`, accumulated left to right from the previous value. -/
def gainsAux (prev : ℚ) : List ℚ → List ℚ
  | [] => []
  | v :: vs => max (v - prev) 0 :: gainsAux v vs

/-- The per-step losses: `losses[i] = max(-(values[i] - values[i-1]), 0)`. -/
def lossesAux (prev : ℚ) : List ℚ → List ℚ
  | [] => []
  | v :: vs => max (prev - v) 0 :: lossesAux v vs

/-- The `gains` array of `rsi` (`gains[0] = 0`). -/
def gainsOf : List ℚ → List ℚ
  | [] => []
  | v :: vs => 0 :: gainsAux v vs

/-- The `losses` array of `rsi` (`losses[0] = 0`). -/
def lossesOf : List ℚ → List ℚ
  | [] => []
  | v :: vs => 0 :: lossesAux v vs

/-- One output cell of `rsi`: `100.0` when the smoothed average loss is zero,
otherwise `100 - 100/(1 + avg_gain/avg_loss)`. -/
def rsiEntry (avg_gain avg_loss : ℚ) : Option ℚ :=
  if avg_loss = 0 then some 100 else some (100 - 100 / (1 + avg_gain / avg_loss))

/-- The `(avg_gain, avg_loss)` pair after processing index `i ≥ period`:
index `period` seeds the averages with the simple means of
`gains[1:period+1]` / `losses[1:period+1]`; later indices apply Wilder
smoothing `avg = (avg*(period-1) + new)/period`.  (The `none` fallback is
unreachable for the consecutive index lists `rsi` uses.) -/
def rsiStepAvg (period : ℕ) (g l : List ℚ) (avg : Option (ℚ × ℚ)) (i : ℕ) :
    ℚ × ℚ :=
  if i = period then
    (((g.drop 1).take period).sum / (period : ℚ),
     ((l.drop 1).take period).sum / (period : ℚ))
  else
    match avg with
    | some (ag, al) =>
        ((ag * ((period : ℚ) - 1) + g.getD i 0) / (period : ℚ),
         (al * ((period : ℚ) - 1) + l.getD i 0) / (period : ℚ))
    | none => (0, 0)

/-- The main loop of `rsi` over indices `1 .. n-1`: indices below `period`
emit `None`; from index `period` on, the smoothed averages are updated by
`rsiStepAvg` and an `rsiEntry` cell is emitted. -/
def rsiGo (period : ℕ) (g l : List ℚ) : Option (ℚ × ℚ) → List ℕ → List (Option ℚ)
  | _, [] => []
  | avg, i :: rest =>
    if i < period then none :: rsiGo period g l avg rest
    else
      let p := rsiStepAvg period g l avg i
      rsiEntry p.1 p.2 :: rsiGo period g l (some p) rest

/-- Body of `rsi` after the argument check: `out[0] = None` and the loop
above for the remaining indices. -/
def rsiCore (values : List ℚ) (period : ℕ) : List (Option ℚ) :=
  if values.length = 0 then []
  else
    none :: rsiGo period (gainsOf values) (lossesOf values) none
      (List.range' 1 (values.length - 1))

/-- Model of `rsi(values, period)` of `indicators.py`; raising `ValueError` for
`period < 1` is modelled by `Except.error`. -/
def rsi (values : List ℚ) (period : ℕ) : Except String (List (Option ℚ)) :=
  if period < 1 then Except.error "period must be >= 1"
  else Except.ok (rsiCore values period)

/-- One row of `historical_data`; only the `Close` key is consulted, and it
may be absent. -/
structure HistRow where
  close : Option ℚ
deriving DecidableEq

/-- Model of `[float(d.get("Close", 0)) for d in historical_data if d.get("Close")]`:
rows whose `Close` is missing, `None`, or `0` (falsy) are skipped. -/
def closesOf (hd : List HistRow) : List ℚ :=
  hd.filterMap fun d =>
    match d.close with
    | some c => if c = 0 then none else some c
    | none => none

/-- Result shape of `calculate_rsi`: `{"current": ..., "values": [...]}`. -/
structure RsiRes where
  current : ℚ
  values : List (Option ℚ)
deriving DecidableEq

/-- Model of `calculate_rsi(historical_data, period)` of `indicators.py`. -/
def calculate_rsi (hd : List HistRow) (period : ℕ) : Except String RsiRes :=
  if hd.isEmpty then Except.ok ⟨50, []⟩
  else
    let closes := closesOf hd
    if closes.length < period + 1 then Except.ok ⟨50, []⟩
    else do
      let rsiValues ← rsi closes period
      let currentRsi : ℚ :=
        match rsiValues.getLast? with
        | some (some v) => v
        | _ => 50
      Except.ok ⟨pyRound2 currentRsi, rsiValues.map (Option.map pyRound2)⟩

/-! ## SignalGenerator: `backend/app/agents/nodes/indicator_node.py` -/

/-- The `rsi` dict argument of `generate_trading_signals`
(`rsi.get("current", 50)`). -/
structure RsiArg where
  current : Option ℚ
deriving DecidableEq

/-- The `macd` dict argument (`macd.get("macd", 0)`, `macd.get("signal", 0)`). -/
structure MacdArg where
  macd : Option ℚ
  signal : Option ℚ
deriving DecidableEq

/-- The `bollinger` dict argument. -/
structure BollArg where
  current_price : Option ℚ
  lower_band : Option ℚ
  upper_band : Option ℚ
deriving DecidableEq

/-- The `moving_avgs` dict argument. -/
structure MaArg where
  sma_50 : Option ℚ
  sma_200 : Option ℚ
deriving DecidableEq

/-- RSI block of `generate_trading_signals`: the emitted label together with
the amount added to `signals["strength"]`. -/
def rsiSignalDelta (r : RsiArg) : String × ℤ :=
  let current_rsi := r.current.getD 50
  if current_rsi < 30 then ("oversold_buy", 1)
  else if 70 < current_rsi then ("overbought_sell", -1)
  else ("neutral", 0)

/-- MACD block of `generate_trading_signals`. -/
def macdSignalDelta (m : MacdArg) : String × ℤ :=
  let macd_line := m.macd.getD 0
  let signal_line := m.signal.getD 0
  if signal_line < macd_line then ("bullish", 1)
  else if macd_line < signal_line then ("bearish", -1)
  else ("neutral", 0)

/-- Bollinger block of `generate_trading_signals`. -/
def bollingerSignalDelta (b : BollArg) : String × ℤ :=
  let current_price := b.current_price.getD 0
  let lower_band := b.lower_band.getD 0
  let upper_band := b.upper_band.getD 0
  if current_price < lower_band then ("oversold_buy", 1)
  else if upper_band < current_price then ("overbought_sell", -1)
  else ("neutral", 0)

/-- Moving-average block of `generate_trading_signals`. -/
def maSignalDelta (a : MaArg) : String × ℤ :=
  let sma_50 := a.sma_50.getD 0
  let sma_200 := a.sma_200.getD 0
  if sma_200 < sma_50 then ("golden_cross_buy", 1)
  else if sma_50 < sma_200 then ("death_cross_sell", -1)
  else ("neutral", 0)

/-- The `TradingSignal` dict built by `generate_trading_signals`. -/
structure TradingSignals where
  rsi_signal : String
  macd_signal : String
  bollinger_signal : String
  ma_signal : String
  overall_signal : String
  strength : ℤ
deriving DecidableEq

/-- Model of `generate_trading_signals(rsi, macd, bollinger, moving_avgs)`: the four
blocks run in order, each adding its delta to `strength`, then the overall
label is derived from the final strength. -/
def generate_trading_signals (r : RsiArg) (m : MacdArg) (b : BollArg) (a : MaArg) :
    TradingSignals :=
  let rs := rsiSignalDelta r
  let ms := macdSignalDelta m
  let bs := bollingerSignalDelta b
  let mas := maSignalDelta a
  let strength : ℤ := 0 + rs.2 + ms.2 + bs.2 + mas.2
  { rsi_signal := rs.1
    macd_signal := ms.1
    bollinger_signal := bs.1
    ma_signal := mas.1
    overall_signal :=
      if 2 ≤ strength then "strong_buy"
      else if strength = 1 then "buy"
      else if strength = -1 then "sell"
      else if strength ≤ -2 then "strong_sell"
      else "hold"
    strength := strength }

/-! ## PortfolioAggregator: `backend/app/agents/utils/agent_utils.py` and
`backend/app/agents/graphs/portfolio_graph.py` -/

/-- View of a per-ticker `signals` dict as consumed by the portfolio code:
only `signals.get("overall_signal", "hold")` is read. -/
structure SigView where
  overall_signal : Option String
deriving DecidableEq

/-- The `signal_map` lookup of `calculate_ticker_score`
(`signal_map.get(overall_signal, 0.5)`). -/
def signal_map (sig : String) : ℚ :=
  if sig = "strong_buy" then 1
  else if sig = "buy" then 0.75
  else if sig = "hold" then 0.5
  else if sig = "sell" then 0.25
  else if sig = "strong_sell" then 0
  else 0.5

/-- Model of `calculate_ticker_score(sentiment, signals)`:
`round(sentiment*0.6 + technical_score*0.4, 2)`. -/
def calculate_ticker_score (sentiment : ℚ) (signals : SigView) : ℚ :=
  let technical_score := signal_map (signals.overall_signal.getD "hold")
  pyRound2 (sentiment * 0.6 + technical_score * 0.4)

/-- Model of `determine_action(sentiment, signals)` of `portfolio_graph.py`. -/
def determine_action (sentiment : ℚ) (signals : SigView) : String :=
  let overall_signal := signals.overall_signal.getD "hold"
  if 0.7 ≤ sentiment ∧ (overall_signal = "strong_buy" ∨ overall_signal = "buy") then
    "Strong Buy"
  else if (0.6 ≤ sentiment ∧ overall_signal = "buy") ∨
      (0.7 ≤ sentiment ∧ overall_signal = "hold") then "Buy"
  else if sentiment ≤ 0.3 ∧ (overall_signal = "strong_sell" ∨ overall_signal = "sell") then
    "Strong Sell"
  else if (sentiment ≤ 0.4 ∧ overall_signal = "sell") ∨
      (sentiment ≤ 0.3 ∧ overall_signal = "hold") then "Sell"
  else if (0.6 ≤ sentiment ∧ (overall_signal = "sell" ∨ overall_signal = "strong_sell")) ∨
      (sentiment ≤ 0.4 ∧ (overall_signal = "buy" ∨ overall_signal = "strong_buy")) then
    "Hold - Monitor Closely"
  else "Hold"

/-- Model of `determine_priority(score, sentiment, signals)` of `portfolio_graph.py`
(1 = highest, 5 = lowest). -/
def determine_priority (score sentiment : ℚ) (signals : SigView) : ℤ :=
  let overall_signal := signals.overall_signal.getD "hold"
  if (0.8 ≤ score ∧ 0.7 ≤ sentiment ∧ overall_signal = "strong_buy") ∨
      (score ≤ 0.2 ∧ sentiment ≤ 0.3 ∧ overall_signal = "strong_sell") then 1
  else if (0.7 ≤ score ∧ (overall_signal = "buy" ∨ overall_signal = "strong_buy")) ∨
      (score ≤ 0.3 ∧ (overall_signal = "sell" ∨ overall_signal = "strong_sell")) then 2
  else if (0.4 ≤ score ∧ score ≤ 0.6) ∨
      (0.6 ≤ sentiment ∧ (overall_signal = "sell" ∨ overall_signal = "strong_sell")) ∨
      (sentiment ≤ 0.4 ∧ (overall_signal = "buy" ∨ overall_signal = "strong_buy")) then 3
  else if overall_signal = "hold" then 4
  else 5

/-- A `Recommendation` entry built by `portfolio_analysis_node`. -/
structure Recommendation where
  ticker : String
  action : String
  score : ℚ
  sentiment : ℚ
  signal : String
  priority : ℤ
deriving DecidableEq

/-- Model of `technical_signals.get(ticker, {}).get("signals", {})`: look the ticker up
in the per-ticker signal table, defaulting to an empty dict. -/
def sigOf (ts : List (String × SigView)) (ticker : String) : SigView :=
  ((ts.find? fun p => p.1 = ticker).map Prod.snd).getD ⟨none⟩

/-- The recommendation-building loop of `portfolio_analysis_node`: one entry
per ticker of `sentiment_scores` (a dict, modelled as an association list in
insertion order). -/
def build_recommendations (sentiment_scores : List (String × ℚ))
    (technical_signals : List (String × SigView)) : List Recommendation :=
  sentiment_scores.map fun p =>
    let ticker := p.1
    let sentiment := p.2
    let signals := sigOf technical_signals ticker
    let score := calculate_ticker_score sentiment signals
    { ticker := ticker
      action := determine_action sentiment signals
      score := score
      sentiment := sentiment
      signal := signals.overall_signal.getD "hold"
      priority := determine_priority score sentiment signals }

/-- The order imposed by
`recommendations.sort(key=lambda x: (x["priority"], x["score"]), reverse=True)`:
`a` may precede `b` iff `a`'s key `(priority, score)` is lexicographically
greater than or equal to `b`'s. -/
def recSortRel (a b : Recommendation) : Prop :=
  b.priority < a.priority ∨ (a.priority = b.priority ∧ b.score ≤ a.score)

instance : DecidableRel recSortRel := fun a b => by
  unfold recSortRel; infer_instance

instance : IsTotal Recommendation recSortRel where
  total a b := by
    unfold recSortRel
    rcases lt_trichotomy a.priority b.priority with h | h | h
    · exact Or.inr (Or.inl h)
    · rcases le_total b.score a.score with hs | hs
      · exact Or.inl (Or.inr ⟨h, hs⟩)
      · exact Or.inr (Or.inr ⟨h.symm, hs⟩)
    · exact Or.inl (Or.inl h)

instance : IsTrans Recommendation recSortRel where
  trans a b c hab hbc := by
    unfold recSortRel at *
    rcases hab with h1 | ⟨h1, h1s⟩ <;> rcases hbc with h2 | ⟨h2, h2s⟩
    · exact Or.inl (h2.trans h1)
    · exact Or.inl (h2 ▸ h1)
    · exact Or.inl (h1 ▸ h2)
    · exact Or.inr ⟨h1.trans h2, h2s.trans h1s⟩

/-- The sorted recommendation list produced by `portfolio_analysis_node`. -/
def portfolio_recommendations (sentiment_scores : List (String × ℚ))
    (technical_signals : List (String × SigView)) : List Recommendation :=
  List.insertionSort recSortRel (build_recommendations sentiment_scores technical_signals)

/-! ## SentimentScorer aggregation: `backend/app/services/sentiment.py` -/

/-- One per-text sentiment result dict as consumed by `aggregate_sentiments`;
each consulted key is optional (`s.get(key, default)`). -/
structure SentItem where
  score : Option ℚ
  compound : Option ℚ
  label : Option String
  confidence : Option ℚ
deriving DecidableEq

/-- Output dict of `aggregate_sentiments`.  The three count fields are only
present on the main path (the early-return dicts omit them), hence
`Option`. -/
structure AggSent where
  score : ℚ
  label : String
  confidence : ℚ
  count : ℕ
  positive_count : Option ℕ
  negative_count : Option ℕ
  neutral_count : Option ℕ
deriving DecidableEq

/-- Model of `aggregate_sentiments(sentiment_results)` of `sentiment.py`.  The input is
a list of dicts, so the `isinstance(s, dict)` filters keep every element and
the compound-score fallback branch is unreachable for non-empty input; it is
modelled nonetheless. -/
def aggregate_sentiments (sentiment_results : List SentItem) : AggSent :=
  if sentiment_results.isEmpty then ⟨0.5, "neutral", 0, 0, none, none, none⟩
  else
    let scores := sentiment_results.map fun s => s.score.getD 0.5
    let scores :=
      if scores.isEmpty then
        sentiment_results.map fun s => ((s.compound.getD 0) + 1) / 2
      else scores
    if scores.isEmpty then
      ⟨0.5, "neutral", 0, sentiment_results.length, none, none, none⟩
    else
      let avg_score := scores.sum / (scores.length : ℚ)
      let labels := sentiment_results.map fun s => s.label.getD "neutral"
      let positive_count := (labels.filter fun l => l = "positive").length
      let negative_count := (labels.filter fun l => l = "negative").length
      let neutral_count := (labels.filter fun l => l = "neutral").length
      let overall_label :=
        if 0.6 ≤ avg_score then "positive"
        else if avg_score ≤ 0.4 then "negative"
        else "neutral"
      let confidences := sentiment_results.map fun s => s.confidence.getD 0
      let avg_confidence :=
        if confidences.isEmpty then 0 else confidences.sum / (confidences.length : ℚ)
      ⟨pyRound3 avg_score, overall_label, pyRound3 avg_confidence,
        sentiment_results.length, some positive_count, some negative_count,
        some neutral_count⟩

/-! ## Sentiment workflow: `backend/app/agents/graphs/sentiment_graph.py` -/

/-- The fields of `SentimentState` the preprocess stage and its conditional
edge read or write. -/
structure SentState where
  texts : List String
  error : Option String
deriving DecidableEq

/-- Model of `preprocess_node(state)`: empty input sets the error field; otherwise the
texts are whitespace-normalised and empty results dropped. -/
def preprocess_node (s : SentState) : SentState :=
  if s.texts.isEmpty then
    { s with error := some "No texts provided for analysis" }
  else
    { s with
      texts := s.texts.filterMap fun t =>
        if t = "" then none
        else
          let cleaned := cleanText t
          if cleaned = "" then none else some cleaned }

/-- Value of a conditional edge of the sentiment graph. -/
inductive SentRoute where
  | toAnalyze
  | toEnd
deriving DecidableEq

/-- Model of `should_continue_after_preprocess(state)`: `END` on a truthy error field
or an empty text list, else `"analyze"`. -/
def should_continue_after_preprocess (s : SentState) : SentRoute :=
  if errTruthy s.error then SentRoute.toEnd
  else if s.texts.isEmpty then SentRoute.toEnd
  else SentRoute.toAnalyze

/-- Model of `should_continue_after_analyze(state)`: always `"postprocess"`. -/
def should_continue_after_analyze (_ : SentState) : String := "postprocess"

/-- The compiled sentiment graph
(`preprocess → (conditional) → analyze → postprocess → END`), parametric in
the analyze and postprocess stage functions. -/
def runSentimentGraph (analyze postprocess : SentState → SentState)
    (s0 : SentState) : SentState :=
  let s1 := preprocess_node s0
  match should_continue_after_preprocess s1 with
  | SentRoute.toEnd => s1
  | SentRoute.toAnalyze => postprocess (analyze s1)

/-! ## Portfolio workflow routing: `backend/app/agents/graphs/portfolio_graph.py` -/

/-- Per-ticker stock data entry of `stocks_data` (contents irrelevant to the
routing decision). -/
structure StockData where
  historical : List HistRow
deriving DecidableEq

/-- The fields of `PortfolioState` that `should_continue_after_fetch`
reads. -/
structure PortState where
  error : Option String
  stocks_data : Option (List (String × StockData))
deriving DecidableEq

/-- Value of the conditional edge after the portfolio fetch stage. -/
inductive PortRoute where
  | toAnalysis
  | toEnd
  | toSentiment
deriving DecidableEq

/-- Model of `should_continue_after_fetch(state)`: `"analysis"` on a truthy error,
`END` when `stocks_data` is missing or empty, else `"sentiment"`. -/
def should_continue_after_fetch (s : PortState) : PortRoute :=
  if errTruthy s.error then PortRoute.toAnalysis
  else if (s.stocks_data.getD []).isEmpty then PortRoute.toEnd
  else PortRoute.toSentiment

/-- The portion of the compiled portfolio graph after the fetch stage:
`fetch → (conditional) → sentiment → indicators → analysis → END`, with the
sentiment→indicators and indicators→analysis edges unconditional, parametric
in the stage functions. -/
def runPortfolioGraphAfterFetch (sentiment indicators analysis : PortState → PortState)
    (s1 : PortState) : PortState :=
  match should_continue_after_fetch s1 with
  | PortRoute.toEnd => s1
  | PortRoute.toAnalysis => analysis s1
  | PortRoute.toSentiment => analysis (indicators (sentiment s1))

/-! ## Route handlers: `backend/app/routes/agent_routes.py` -/

/-- The workflow output dict as seen by a route handler: an `error` key
(possibly `None`) next to the remaining payload, which we keep abstract as a
list of key/value pairs. -/
structure AgentResult where
  error : Option String
  payload : List (String × String)
deriving DecidableEq

/-- Outcome of a FastAPI endpoint call: a JSON body or an `HTTPException`
with a status code and detail string. -/
inductive ApiOutcome where
  | ok (body : AgentResult)
  | httpError (status : ℕ) (detail : String)
deriving DecidableEq

/-- Model of `str(HTTPException(status, detail))` as used by the blanket
`except Exception as e: raise HTTPException(500, str(e))` handlers. -/
def strOfHTTPExc (status : ℕ) (detail : String) : String :=
  toString status ++ ": " ++ detail

/-- The `try` body of an endpoint produces `inner`; any exception raised in
it (including an `HTTPException`) is caught by `except Exception` and
re-raised as a 500 with `str(e)` as detail. -/
def wrapExcept (inner : ApiOutcome) : ApiOutcome :=
  match inner with
  | ApiOutcome.ok b => ApiOutcome.ok b
  | ApiOutcome.httpError st d => ApiOutcome.httpError 500 (strOfHTTPExc st d)

/-- Model of `research_agent(request)` given the result of `run_research_analysis`. -/
def research_agent (result : AgentResult) : ApiOutcome :=
  wrapExcept
    (if errTruthy result.error then ApiOutcome.httpError 500 (result.error.getD "")
     else ApiOutcome.ok result)

/-- Model of `sentiment_agent(request)`, parametric in `run_sentiment_analysis`. -/
def sentiment_agent (runSA : List String → AgentResult) (texts : List String) :
    ApiOutcome :=
  wrapExcept
    (if texts.isEmpty then ApiOutcome.httpError 400 "No texts provided"
     else
       let result := runSA texts
       if errTruthy result.error then ApiOutcome.httpError 500 (result.error.getD "")
       else ApiOutcome.ok result)

/-- Model of `portfolio_agent(request)`, parametric in `run_portfolio_analysis`. -/
def portfolio_agent (runPA : List String → AgentResult) (tickers : List String) :
    ApiOutcome :=
  wrapExcept
    (if tickers.isEmpty then ApiOutcome.httpError 400 "No tickers provided"
     else if 20 < tickers.length then
       ApiOutcome.httpError 400 "Maximum 20 tickers allowed per request"
     else
       let result := runPA tickers
       if errTruthy result.error then ApiOutcome.httpError 500 (result.error.getD "")
       else ApiOutcome.ok result)

/-! ## Theorems -/

/-- Claim C10: `should_continue_after_fetch` returns `"analysis"` whenever the
record's error field is set (so the sentiment and indicators stages are
skipped and the graph jumps straight to the analysis stage), returns `END`
when the error is unset and `stocks_data` is empty, and returns
`"sentiment"` in every other case. -/
theorem should_continue_after_fetch_spec (s : PortState) :
    (errTruthy s.error = true →
      should_continue_after_fetch s = PortRoute.toAnalysis ∧
      ∀ sentiment indicators analysis : PortState → PortState,
        runPortfolioGraphAfterFetch sentiment indicators analysis s = analysis s) ∧
    (errTruthy s.error = false → (s.stocks_data.getD []).isEmpty = true →
      should_continue_after_fetch s = PortRoute.toEnd) ∧
    (errTruthy s.error = false → (s.stocks_data.getD []).isEmpty = false →
      should_continue_after_fetch s = PortRoute.toSentiment) := by
  refine ⟨fun h => ?_, fun h h2 => ?_, fun h h2 => ?_⟩
  · have hr : should_continue_after_fetch s = PortRoute.toAnalysis := by
      simp [should_continue_after_fetch, h]
    exact ⟨hr, fun sentiment indicators analysis => by
      simp [runPortfolioGraphAfterFetch, hr]⟩
  · simp [should_continue_after_fetch, h, h2]
  · simp [should_continue_after_fetch, h, h2]

/-- Witness for C10: the three cases at concrete states. -/
theorem should_continue_after_fetch_spec_witness :
    should_continue_after_fetch ⟨some "boom", none⟩ = PortRoute.toAnalysis ∧
    should_continue_after_fetch ⟨none, none⟩ = PortRoute.toEnd ∧
    should_continue_after_fetch ⟨none, some [("AAPL", ⟨[]⟩)]⟩ = PortRoute.toSentiment :=
  ⟨((should_continue_after_fetch_spec ⟨some "boom", none⟩).1 (by decide)).1,
   (should_continue_after_fetch_spec ⟨none, none⟩).2.1 (by decide) (by decide),
   (should_continue_after_fetch_spec ⟨none, some [("AAPL", ⟨[]⟩)]⟩).2.2
     (by decide) (by decide)⟩

/-- Claim C6: a request with 21 tickers never invokes `run_portfolio_analysis`
(the outcome is the same for every analysis function), but the response is
an HTTP 500, not a 400: the `HTTPException(400, "Maximum 20 tickers allowed
per request")` raised inside the `try` block is caught by the endpoint's
blanket `except Exception` handler and re-raised as
`HTTPException(500, str(e))`. -/
theorem portfolio_agent_21_tickers (runPA : List String → AgentResult) :
    portfolio_agent runPA (List.replicate 21 "AAPL") =
      ApiOutcome.httpError 500 "400: Maximum 20 tickers allowed per request" := by
  rfl

/-- Counterexample to C1: a workflow record carrying a degradable stage error
(error field set, partial results present) makes the endpoint raise
`HTTPException(500, ...)` — the caller receives a hard failure, not the
partial-results payload. -/
theorem research_agent_degraded_error_hard_failure :
    research_agent ⟨some "Indicator calculation error: boom",
        [("sentiment", "partial")]⟩ =
      ApiOutcome.httpError 500 "500: Indicator calculation error: boom" := by
  rfl

/-- Claim C1 (amended): whenever the workflow record's error field is set
(non-empty), all three endpoints raise an HTTP 500 hard failure; the payload
with the nullable error field is returned to the caller only when the error
field is unset or empty. -/
theorem agent_endpoints_error_envelope (result : AgentResult)
    (texts tickers : List String) (ht : texts.isEmpty = false)
    (htk : tickers.isEmpty = false) (hlen : tickers.length ≤ 20) :
    (errTruthy result.error = true →
      research_agent result =
        ApiOutcome.httpError 500 (strOfHTTPExc 500 (result.error.getD "")) ∧
      sentiment_agent (fun _ => result) texts =
        ApiOutcome.httpError 500 (strOfHTTPExc 500 (result.error.getD "")) ∧
      portfolio_agent (fun _ => result) tickers =
        ApiOutcome.httpError 500 (strOfHTTPExc 500 (result.error.getD ""))) ∧
    (errTruthy result.error = false →
      research_agent result = ApiOutcome.ok result ∧
      sentiment_agent (fun _ => result) texts = ApiOutcome.ok result ∧
      portfolio_agent (fun _ => result) tickers = ApiOutcome.ok result) := by
  have hlen' : ¬ 20 < tickers.length := not_lt.mpr hlen
  constructor <;> intro h <;>
    refine ⟨?_, ?_, ?_⟩ <;>
      simp [research_agent, sentiment_agent, portfolio_agent, wrapExcept, h, ht,
        htk, hlen']

/-- Witness for C1 (amended): the error case at a concrete record. -/
theorem agent_endpoints_error_envelope_witness :
    research_agent ⟨some "x", []⟩ = ApiOutcome.httpError 500 "500: x" ∧
    sentiment_agent (fun _ => ⟨some "x", []⟩) ["a"] =
      ApiOutcome.httpError 500 "500: x" ∧
    portfolio_agent (fun _ => ⟨some "x", []⟩) ["AAPL"] =
      ApiOutcome.httpError 500 "500: x" :=
  (agent_endpoints_error_envelope ⟨some "x", []⟩ ["a"] ["AAPL"] rfl rfl
    (by norm_num)).1 (by decide)

/-- Counterexample to C8: for the empty input list the workflow does
terminate right after the preprocess stage, but with the error field SET to
"No texts provided for analysis", not unset as the claim states. -/
theorem sentiment_graph_empty_input_sets_error :
    (runSentimentGraph id id ⟨[], none⟩).error =
      some "No texts provided for analysis" := by
  rfl

/-- Claim C8 (amended): if no non-empty entry survives preprocessing, the workflow
terminates immediately after the preprocess stage (the analyze and
postprocess stages never run, for any choice of those stage functions); for
a non-empty input list it terminates without error, while for the empty
input list the preprocess stage itself sets the error field. -/
theorem sentiment_graph_no_texts_terminates (texts : List String)
    (analyze postprocess : SentState → SentState)
    (h : ∀ t ∈ texts, cleanText t = "") :
    runSentimentGraph analyze postprocess ⟨texts, none⟩ =
      preprocess_node ⟨texts, none⟩ ∧
    should_continue_after_preprocess (preprocess_node ⟨texts, none⟩) =
      SentRoute.toEnd ∧
    (texts ≠ [] → (preprocess_node ⟨texts, none⟩).error = none ∧
      (preprocess_node ⟨texts, none⟩).texts = []) ∧
    (texts = [] → (preprocess_node ⟨texts, none⟩).error =
      some "No texts provided for analysis") := by
  cases texts with
  | nil =>
    refine ⟨rfl, rfl, fun hne => absurd rfl hne, fun _ => rfl⟩
  | cons t ts =>
    have hfm : List.filterMap
        (fun t => if t = "" then none
          else if cleanText t = "" then none else some (cleanText t))
        (t :: ts) = [] := by
      rw [List.filterMap_eq_nil_iff]
      intro a ha
      by_cases he : a = ""
      · simp [he]
      · simp [he, h a ha]
    have hp : preprocess_node ⟨t :: ts, none⟩ = ⟨[], none⟩ := by
      simp [preprocess_node, hfm]
    have hr : should_continue_after_preprocess (⟨[], none⟩ : SentState) =
        SentRoute.toEnd := rfl
    refine ⟨?_, by rw [hp]; exact hr, fun _ => by rw [hp]; exact ⟨rfl, rfl⟩,
      fun he => by cases he⟩
    rw [runSentimentGraph]
    rw [hp, hr]

/-- Witness for C8 (amended): a whitespace-only input list. -/
theorem sentiment_graph_no_texts_terminates_witness :
    runSentimentGraph id id ⟨["  ", "\t\n"], none⟩ =
      preprocess_node ⟨["  ", "\t\n"], none⟩ ∧
    should_continue_after_preprocess
        (preprocess_node ⟨["  ", "\t\n"], none⟩) = SentRoute.toEnd ∧
    (["  ", "\t\n"] ≠ [] →
      (preprocess_node ⟨["  ", "\t\n"], none⟩).error = none ∧
      (preprocess_node ⟨["  ", "\t\n"], none⟩).texts = []) ∧
    (["  ", "\t\n"] = [] →
      (preprocess_node ⟨["  ", "\t\n"], none⟩).error =
        some "No texts provided for analysis") :=
  sentiment_graph_no_texts_terminates ["  ", "\t\n"] id id (by decide)

/-- Counterexample to C4: at `sentiment = 0.123` with a `hold` signal the
returned score is `round(0.2738, 2) = 0.27`, which differs from the exact
weighted sum `0.6*0.123 + 0.4*0.5 = 0.2738` — the claim omits the final
rounding to two decimal places. -/
theorem calculate_ticker_score_rounds :
    calculate_ticker_score (123/1000) ⟨some "hold"⟩ = 27/100 ∧
    (27/100 : ℚ) ≠ 6/10 * (123/1000) + 4/10 * (1/2) := by
  constructor
  · have hm : signal_map ((some "hold").getD "hold") = 1/2 := by
      simp +decide [signal_map]; norm_num
    unfold calculate_ticker_score
    rw [hm]
    norm_num [pyRound2, roundHalfEven]
  · norm_num

/-- Claim C4 (amended): for every sentiment `s ∈ [0,1]` and every signals dict,
`calculate_ticker_score(s, signals)` equals `0.6*s + 0.4*t` ROUNDED to two
decimal places, where `t` maps `overall_signal` through
`{strong_buy:1.0, buy:0.75, hold:0.5, sell:0.25, strong_sell:0.0}` with
default `0.5`; in particular the exact endpoint identities
`calculate_ticker_score(1.0, strong_buy) = 1.0` and
`calculate_ticker_score(0.0, strong_sell) = 0.0` hold. -/
theorem calculate_ticker_score_spec (s : ℚ) (signals : SigView)
    (h0 : 0 ≤ s) (h1 : s ≤ 1) :
    calculate_ticker_score s signals =
      pyRound2 (0.6 * s + 0.4 * signal_map (signals.overall_signal.getD "hold")) ∧
    calculate_ticker_score 1 ⟨some "strong_buy"⟩ = 1 ∧
    calculate_ticker_score 0 ⟨some "strong_sell"⟩ = 0 := by
  have hb : signal_map ((some "strong_buy").getD "hold") = 1 := by
    simp +decide [signal_map]
  have hs : signal_map ((some "strong_sell").getD "hold") = 0 := by
    simp +decide [signal_map]
  refine ⟨?_, ?_, ?_⟩
  · unfold calculate_ticker_score
    exact congrArg pyRound2 (by ring)
  · unfold calculate_ticker_score
    rw [hb]
    norm_num [pyRound2, roundHalfEven]
  · unfold calculate_ticker_score
    rw [hs]
    norm_num [pyRound2, roundHalfEven]

/-- Witness for C4 (amended). -/
theorem calculate_ticker_score_spec_witness :
    calculate_ticker_score (1/2) ⟨some "hold"⟩ =
      pyRound2 (0.6 * (1/2) + 0.4 * signal_map ((some "hold").getD "hold")) ∧
    calculate_ticker_score 1 ⟨some "strong_buy"⟩ = 1 ∧
    calculate_ticker_score 0 ⟨some "strong_sell"⟩ = 0 :=
  calculate_ticker_score_spec (1/2) ⟨some "hold"⟩ (by norm_num) (by norm_num)

/-- The RSI block adds exactly `-1`, `0`, or `+1` to the strength. -/
lemma rsiSignalDelta_mem (r : RsiArg) :
    (rsiSignalDelta r).2 = -1 ∨ (rsiSignalDelta r).2 = 0 ∨ (rsiSignalDelta r).2 = 1 := by
  simp only [rsiSignalDelta]
  split_ifs <;> simp

/-- The MACD block adds exactly `-1`, `0`, or `+1` to the strength. -/
lemma macdSignalDelta_mem (m : MacdArg) :
    (macdSignalDelta m).2 = -1 ∨ (macdSignalDelta m).2 = 0 ∨ (macdSignalDelta m).2 = 1 := by
  simp only [macdSignalDelta]
  split_ifs <;> simp

/-- The Bollinger block adds exactly `-1`, `0`, or `+1` to the strength. -/
lemma bollingerSignalDelta_mem (b : BollArg) :
    (bollingerSignalDelta b).2 = -1 ∨ (bollingerSignalDelta b).2 = 0 ∨
      (bollingerSignalDelta b).2 = 1 := by
  simp only [bollingerSignalDelta]
  split_ifs <;> simp

/-- The moving-average block adds exactly `-1`, `0`, or `+1` to the strength. -/
lemma maSignalDelta_mem (a : MaArg) :
    (maSignalDelta a).2 = -1 ∨ (maSignalDelta a).2 = 0 ∨ (maSignalDelta a).2 = 1 := by
  simp only [maSignalDelta]
  split_ifs <;> simp

/-- Claim C2: for every input, `generate_trading_signals` produces a strength in
`[-4,4]` that is the unweighted sum of four per-indicator contributions, each
exactly `-1`, `0`, or `+1`; `overall_signal` is the total function of
strength given by the table `strength ≥ 2 → strong_buy`, `= 1 → buy`,
`= -1 → sell`, `≤ -2 → strong_sell`, else `hold`; and the residual `hold`
case occurs exactly at strength `0`. -/
theorem generate_trading_signals_spec (r : RsiArg) (m : MacdArg) (b : BollArg)
    (a : MaArg) :
    (-4 ≤ (generate_trading_signals r m b a).strength ∧
      (generate_trading_signals r m b a).strength ≤ 4) ∧
    (generate_trading_signals r m b a).strength =
      (rsiSignalDelta r).2 + (macdSignalDelta m).2 + (bollingerSignalDelta b).2 +
        (maSignalDelta a).2 ∧
    ((rsiSignalDelta r).2 = -1 ∨ (rsiSignalDelta r).2 = 0 ∨ (rsiSignalDelta r).2 = 1) ∧
    ((macdSignalDelta m).2 = -1 ∨ (macdSignalDelta m).2 = 0 ∨ (macdSignalDelta m).2 = 1) ∧
    ((bollingerSignalDelta b).2 = -1 ∨ (bollingerSignalDelta b).2 = 0 ∨
      (bollingerSignalDelta b).2 = 1) ∧
    ((maSignalDelta a).2 = -1 ∨ (maSignalDelta a).2 = 0 ∨ (maSignalDelta a).2 = 1) ∧
    (generate_trading_signals r m b a).overall_signal =
      (if 2 ≤ (generate_trading_signals r m b a).strength then "strong_buy"
       else if (generate_trading_signals r m b a).strength = 1 then "buy"
       else if (generate_trading_signals r m b a).strength = -1 then "sell"
       else if (generate_trading_signals r m b a).strength ≤ -2 then "strong_sell"
       else "hold") ∧
    ((generate_trading_signals r m b a).overall_signal = "hold" ↔
      (generate_trading_signals r m b a).strength = 0) := by
  have h1 := rsiSignalDelta_mem r
  have h2 := macdSignalDelta_mem m
  have h3 := bollingerSignalDelta_mem b
  have h4 := maSignalDelta_mem a
  have hs : (generate_trading_signals r m b a).strength =
      (rsiSignalDelta r).2 + (macdSignalDelta m).2 + (bollingerSignalDelta b).2 +
        (maSignalDelta a).2 := by
    simp [generate_trading_signals]
  have hb : -4 ≤ (generate_trading_signals r m b a).strength ∧
      (generate_trading_signals r m b a).strength ≤ 4 := by
    rw [hs]
    rcases h1 with h1 | h1 | h1 <;> rcases h2 with h2 | h2 | h2 <;>
      rcases h3 with h3 | h3 | h3 <;> rcases h4 with h4 | h4 | h4 <;> omega
  have htab : (generate_trading_signals r m b a).overall_signal =
      (if 2 ≤ (generate_trading_signals r m b a).strength then "strong_buy"
       else if (generate_trading_signals r m b a).strength = 1 then "buy"
       else if (generate_trading_signals r m b a).strength = -1 then "sell"
       else if (generate_trading_signals r m b a).strength ≤ -2 then "strong_sell"
       else "hold") := rfl
  refine ⟨hb, hs, h1, h2, h3, h4, htab, ?_⟩
  rw [htab]
  split_ifs with c1 c2 c3 c4 <;> simp +decide <;> omega

/-- Claim C5: the recommendation list produced by the portfolio analysis stage is
sorted so that each adjacent pair satisfies: higher numeric priority first,
ties broken by score descending (`reverse=True` lexicographic sort on the
`(priority, score)` key). -/
theorem portfolio_recommendations_sorted (sentiment_scores : List (String × ℚ))
    (technical_signals : List (String × SigView)) :
    List.Chain' (fun a b : Recommendation =>
        b.priority < a.priority ∨ (a.priority = b.priority ∧ b.score ≤ a.score))
      (portfolio_recommendations sentiment_scores technical_signals) :=
  (List.sorted_insertionSort recSortRel
    (build_recommendations sentiment_scores technical_signals)).chain'

/-- Counterexample to C7: for the per-text results with normalized scores
`[1, 0, 0]` the returned score is `round(1/3, 3) = 0.333`, not the exact
arithmetic mean `1/3` — the claim omits the rounding to three decimal
places. -/
theorem aggregate_sentiments_rounds :
    (aggregate_sentiments
        [⟨some 1, none, none, none⟩, ⟨some 0, none, none, none⟩,
         ⟨some 0, none, none, none⟩]).score = 333/1000 ∧
    (333/1000 : ℚ) ≠ (1 + 0 + 0) / 3 := by
  constructor
  · simp +decide [aggregate_sentiments]
    norm_num [pyRound3, roundHalfEven]
  · norm_num

/-- Claim C7 (amended): `aggregate_sentiments([])` returns exactly
`{score: 0.5, label: "neutral", confidence: 0.0, count: 0}` (no count
breakdown fields) and does not fail; for every non-empty list of per-text
results the returned score is the arithmetic mean of the normalized scores
ROUNDED to three decimal places, the overall label is computed from the
exact (unrounded) mean with thresholds `≥ 0.6 → positive`,
`≤ 0.4 → negative`, else neutral, and `count` is the input length. -/
theorem aggregate_sentiments_spec :
    aggregate_sentiments [] = ⟨0.5, "neutral", 0, 0, none, none, none⟩ ∧
    ∀ rs : List SentItem, rs ≠ [] →
      (aggregate_sentiments rs).score =
        pyRound3 ((rs.map fun s => s.score.getD 0.5).sum / (rs.length : ℚ)) ∧
      (aggregate_sentiments rs).label =
        (if 0.6 ≤ (rs.map fun s => s.score.getD 0.5).sum / (rs.length : ℚ)
         then "positive"
         else if (rs.map fun s => s.score.getD 0.5).sum / (rs.length : ℚ) ≤ 0.4
         then "negative" else "neutral") ∧
      (aggregate_sentiments rs).count = rs.length := by
  refine ⟨rfl, fun rs h => ?_⟩
  have hne : rs.isEmpty = false := by
    cases rs with
    | nil => exact absurd rfl h
    | cons a l => rfl
  have hsne : (rs.map fun s => s.score.getD 0.5).isEmpty = false := by
    cases rs with
    | nil => exact absurd rfl h
    | cons a l => rfl
  have hlen : (rs.map fun s => s.score.getD 0.5).length = rs.length :=
    List.length_map _ _
  refine ⟨?_, ?_, ?_⟩ <;>
    simp only [aggregate_sentiments, hne, hsne, Bool.false_eq_true, if_false,
      hlen]

/-- Witness for C7 (amended): a singleton result list. -/
theorem aggregate_sentiments_spec_witness :
    (aggregate_sentiments [⟨some (1/2), none, none, none⟩]).score =
      pyRound3 ((([⟨some (1/2), none, none, none⟩] : List SentItem).map
          fun s => s.score.getD 0.5).sum /
        ((([⟨some (1/2), none, none, none⟩] : List SentItem).length : ℚ))) ∧
    (aggregate_sentiments [⟨some (1/2), none, none, none⟩]).label =
      (if 0.6 ≤ (([⟨some (1/2), none, none, none⟩] : List SentItem).map
            fun s => s.score.getD 0.5).sum /
          ((([⟨some (1/2), none, none, none⟩] : List SentItem).length : ℚ))
       then "positive"
       else if (([⟨some (1/2), none, none, none⟩] : List SentItem).map
            fun s => s.score.getD 0.5).sum /
          ((([⟨some (1/2), none, none, none⟩] : List SentItem).length : ℚ)) ≤ 0.4
       then "negative" else "neutral") ∧
    (aggregate_sentiments [⟨some (1/2), none, none, none⟩]).count =
      ([⟨some (1/2), none, none, none⟩] : List SentItem).length :=
  aggregate_sentiments_spec.2 [⟨some (1/2), none, none, none⟩] (by simp)

/-- Every entry of `gainsAux` is non-negative. -/
lemma gainsAux_nonneg (prev : ℚ) (vs : List ℚ) : ∀ x ∈ gainsAux prev vs, 0 ≤ x := by
  induction vs generalizing prev with
  | nil => intro x hx; simp [gainsAux] at hx
  | cons v vs ih =>
    intro x hx
    rw [gainsAux] at hx
    rcases List.mem_cons.mp hx with h | h
    · subst h; exact le_max_right _ _
    · exact ih v x h

/-- Every entry of `lossesAux` is non-negative. -/
lemma lossesAux_nonneg (prev : ℚ) (vs : List ℚ) : ∀ x ∈ lossesAux prev vs, 0 ≤ x := by
  induction vs generalizing prev with
  | nil => intro x hx; simp [lossesAux] at hx
  | cons v vs ih =>
    intro x hx
    rw [lossesAux] at hx
    rcases List.mem_cons.mp hx with h | h
    · subst h; exact le_max_right _ _
    · exact ih v x h

/-- Every entry of the `gains` array is non-negative. -/
lemma gainsOf_nonneg (values : List ℚ) : ∀ x ∈ gainsOf values, 0 ≤ x := by
  cases values with
  | nil => intro x hx; simp [gainsOf] at hx
  | cons v vs =>
    intro x hx
    rw [gainsOf] at hx
    rcases List.mem_cons.mp hx with h | h
    · subst h; exact le_refl 0
    · exact gainsAux_nonneg v vs x h

/-- Every entry of the `losses` array is non-negative. -/
lemma lossesOf_nonneg (values : List ℚ) : ∀ x ∈ lossesOf values, 0 ≤ x := by
  cases values with
  | nil => intro x hx; simp [lossesOf] at hx
  | cons v vs =>
    intro x hx
    rw [lossesOf] at hx
    rcases List.mem_cons.mp hx with h | h
    · subst h; exact le_refl 0
    · exact lossesAux_nonneg v vs x h

/-- Indexing with default `0` into a list of non-negative rationals is
non-negative. -/
lemma getD_nonneg (xs : List ℚ) (i : ℕ) (h : ∀ x ∈ xs, 0 ≤ x) :
    0 ≤ xs.getD i 0 := by
  rcases lt_or_ge i xs.length with hi | hi
  · rw [List.getD_eq_getElem?_getD, List.getElem?_eq_getElem hi]
    exact h _ (List.getElem_mem hi)
  · rw [List.getD_eq_getElem?_getD, List.getElem?_eq_none hi]
    exact le_refl 0

/-- The seed means of any slice of a non-negative list are non-negative. -/
lemma sum_slice_div_nonneg (xs : List ℚ) (p q : ℕ) (h : ∀ x ∈ xs, 0 ≤ x) :
    0 ≤ ((xs.drop 1).take p).sum / (q : ℚ) := by
  apply div_nonneg
  · exact List.sum_nonneg fun x hx =>
      h x (List.mem_of_mem_drop (List.mem_of_mem_take hx))
  · exact_mod_cast Nat.zero_le q

/-- One Wilder-smoothing step on non-negative inputs is non-negative (for
`period = 0` the division by zero yields `0`). -/
lemma wilder_step_nonneg (period : ℕ) (ag gi : ℚ) (hag : 0 ≤ ag) (hgi : 0 ≤ gi) :
    0 ≤ (ag * ((period : ℚ) - 1) + gi) / (period : ℚ) := by
  rcases Nat.eq_zero_or_pos period with hp | hp
  · subst hp; simp
  · apply div_nonneg
    · have h1 : (1 : ℚ) ≤ (period : ℚ) := by exact_mod_cast hp
      have h2 : 0 ≤ (period : ℚ) - 1 := by linarith
      exact add_nonneg (mul_nonneg hag h2) hgi
    · exact_mod_cast Nat.zero_le period

/-- The updated `(avg_gain, avg_loss)` pair stays non-negative. -/
lemma rsiStepAvg_nonneg (period : ℕ) (g l : List ℚ) (avg : Option (ℚ × ℚ))
    (hg : ∀ x ∈ g, 0 ≤ x) (hl : ∀ x ∈ l, 0 ≤ x)
    (havg : ∀ ag al, avg = some (ag, al) → 0 ≤ ag ∧ 0 ≤ al) (i : ℕ) :
    0 ≤ (rsiStepAvg period g l avg i).1 ∧ 0 ≤ (rsiStepAvg period g l avg i).2 := by
  unfold rsiStepAvg
  split_ifs with hi
  · exact ⟨sum_slice_div_nonneg g period period hg,
      sum_slice_div_nonneg l period period hl⟩
  · cases avg with
    | none => simp
    | some p =>
      obtain ⟨ag, al⟩ := p
      obtain ⟨hag, hal⟩ := havg ag al rfl
      exact ⟨wilder_step_nonneg period ag (g.getD i 0) hag (getD_nonneg g i hg),
        wilder_step_nonneg period al (l.getD i 0) hal (getD_nonneg l i hl)⟩

/-- An `rsiEntry` cell computed from non-negative averages lies in
`[0, 100]`; it is exactly `100` when the average loss is zero. -/
lemma rsiEntry_bounds (ag al : ℚ) (hag : 0 ≤ ag) (hal : 0 ≤ al) :
    ∀ x : ℚ, rsiEntry ag al = some x → 0 ≤ x ∧ x ≤ 100 := by
  intro x hx
  unfold rsiEntry at hx
  split_ifs at hx with h
  · obtain rfl : (100 : ℚ) = x := Option.some.inj hx
    norm_num
  · obtain rfl : 100 - 100 / (1 + ag / al) = x := Option.some.inj hx
    have hal' : 0 < al := lt_of_le_of_ne hal (Ne.symm h)
    have hrs : 0 ≤ ag / al := div_nonneg hag hal
    have h1 : (1 : ℚ) ≤ 1 + ag / al := by linarith
    have h2 : 0 < 100 / (1 + ag / al) := div_pos (by norm_num) (by linarith)
    have h3 : 100 / (1 + ag / al) ≤ 100 := div_le_self (by norm_num) h1
    constructor <;> linarith

/-- The RSI loop emits one cell per index. -/
lemma rsiGo_length (period : ℕ) (g l : List ℚ) (avg : Option (ℚ × ℚ))
    (idxs : List ℕ) : (rsiGo period g l avg idxs).length = idxs.length := by
  induction idxs generalizing avg with
  | nil => rfl
  | cons i rest ih =>
    rw [rsiGo]
    split_ifs
    · simp [ih]
    · simp [ih]

/-- Every non-`None` cell emitted by the RSI loop lies in `[0, 100]`,
provided the gains/losses arrays and the carried averages are
non-negative. -/
lemma rsiGo_bounds (period : ℕ) (g l : List ℚ)
    (hg : ∀ x ∈ g, 0 ≤ x) (hl : ∀ x ∈ l, 0 ≤ x) :
    ∀ (idxs : List ℕ) (avg : Option (ℚ × ℚ)),
      (∀ ag al, avg = some (ag, al) → 0 ≤ ag ∧ 0 ≤ al) →
      ∀ o ∈ rsiGo period g l avg idxs, ∀ x : ℚ, o = some x → 0 ≤ x ∧ x ≤ 100 := by
  intro idxs
  induction idxs with
  | nil => intro avg _ o ho; simp [rsiGo] at ho
  | cons i rest ih =>
    intro avg havg o ho x hx
    rw [rsiGo] at ho
    by_cases hip : i < period
    · rw [if_pos hip] at ho
      rcases List.mem_cons.mp ho with h | h
      · subst h; cases hx
      · exact ih avg havg o h x hx
    · rw [if_neg hip] at ho
      simp only at ho
      have hp := rsiStepAvg_nonneg period g l avg hg hl havg i
      rcases List.mem_cons.mp ho with h | h
      · subst h
        exact rsiEntry_bounds _ _ hp.1 hp.2 x hx
      · refine ih (some (rsiStepAvg period g l avg i)) ?_ o h x hx
        intro ag al hsome
        have hpq : rsiStepAvg period g l avg i = (ag, al) :=
          Option.some.inj hsome
        rw [hpq] at hp
        exact hp

/-- The RSI output has the same length as the input series. -/
lemma rsiCore_length (values : List ℚ) (period : ℕ) :
    (rsiCore values period).length = values.length := by
  unfold rsiCore
  split_ifs with h
  · simp [h]
  · simp only [List.length_cons, rsiGo_length, List.length_range']
    omega

/-- Claim C3: for every values list and every `period ≥ 1`, `rsi` succeeds and
returns a list whose length equals the input length, in which every
non-`None` entry lies in `[0, 100]`; and the output cell computed when the
smoothed average loss is `0` is exactly `100.0` (no division by zero). -/
theorem rsi_length_bounds (values : List ℚ) (period : ℕ) (hp : 1 ≤ period) :
    rsi values period = Except.ok (rsiCore values period) ∧
    (rsiCore values period).length = values.length ∧
    (∀ o ∈ rsiCore values period, ∀ x : ℚ, o = some x → 0 ≤ x ∧ x ≤ 100) ∧
    ∀ ag : ℚ, rsiEntry ag 0 = some 100 := by
  refine ⟨?_, rsiCore_length values period, ?_, fun ag => by simp [rsiEntry]⟩
  · rw [rsi, if_neg (by omega)]
  · intro o ho x hx
    rw [rsiCore] at ho
    split_ifs at ho with h
    · simp at ho
    · rcases List.mem_cons.mp ho with h' | h'
      · subst h'; cases hx
      · exact rsiGo_bounds period (gainsOf values) (lossesOf values)
          (gainsOf_nonneg values) (lossesOf_nonneg values) _ none
          (fun ag al hsome => by cases hsome) o h' x hx

/-- Witness for C3: a concrete four-point series with `period = 2`. -/
theorem rsi_length_bounds_witness :
    rsi [1, 2, 1, 3] 2 = Except.ok (rsiCore [1, 2, 1, 3] 2) ∧
    (rsiCore [1, 2, 1, 3] 2).length = ([1, 2, 1, 3] : List ℚ).length ∧
    (∀ o ∈ rsiCore [1, 2, 1, 3] 2, ∀ x : ℚ, o = some x → 0 ≤ x ∧ x ≤ 100) ∧
    ∀ ag : ℚ, rsiEntry ag 0 = some 100 :=
  rsi_length_bounds [1, 2, 1, 3] 2 (by norm_num)

/-- Claim C9: whenever `historical_data` has fewer than `period + 1` valid closing
prices (rows with a present, non-zero `Close`; in particular the empty
list), `calculate_rsi` returns exactly `{"current": 50.0, "values": []}`
without raising, and the midpoint sentinel `50` drives the downstream RSI
signal to `"neutral"` (since `30 ≤ 50 ≤ 70`), contributing `0` to the
signal strength. -/
theorem calculate_rsi_insufficient (hd : List HistRow) (period : ℕ)
    (m : MacdArg) (b : BollArg) (a : MaArg)
    (h : (closesOf hd).length < period + 1) :
    calculate_rsi hd period = Except.ok ⟨50, []⟩ ∧
    (generate_trading_signals ⟨some 50⟩ m b a).rsi_signal = "neutral" ∧
    (rsiSignalDelta ⟨some 50⟩).2 = 0 := by
  refine ⟨?_, ?_, ?_⟩
  · unfold calculate_rsi
    split_ifs with h1
    · rfl
    · simp [h]
  · show (rsiSignalDelta ⟨some 50⟩).1 = "neutral"
    unfold rsiSignalDelta
    norm_num
  · unfold rsiSignalDelta
    norm_num

/-- Witness for C9: the empty history with the default `period = 14`. -/
theorem calculate_rsi_insufficient_witness :
    calculate_rsi [] 14 = Except.ok ⟨50, []⟩ ∧
    (generate_trading_signals ⟨some 50⟩ ⟨none, none⟩ ⟨none, none, none⟩
      ⟨none, none⟩).rsi_signal = "neutral" ∧
    (rsiSignalDelta ⟨some 50⟩).2 = 0 :=
  calculate_rsi_insufficient [] 14 ⟨none, none⟩ ⟨none, none, none⟩ ⟨none, none⟩
    (by simp [closesOf])
